import Mathlib

/-!
Verification of the slot-indexed flight-plan synchronization manager
(`FlightPlanManager.ts`): a shallow embedding of the slot table, the
mutation API (`has`, `get`, `create`, `delete`, `deleteAll`, `copy`,
`swap`), the echo-guarded publisher (`sendEvent` and the `ignoreSync`
flag), the sync protocol handlers, and the bootstrap timer.

The `FlightPlan` value type is an external collaborator (its class is not
part of the verified source); it is modelled from the spec as an opaque
versioned record tagged with a slot index.

JavaScript exceptions (`throw new Error(...)`) are modelled with
`Except`: every mutating operation returns the outcome together with the
state it left behind, because a throw does not roll back mutations that
already happened (this matters for `swap(a, a)`).

The sparse JavaScript array `plans` is modelled as a `List` of optional
plans: `plans[i] = v` pads with holes when `i` is past the end, and
`plans.length = 0` truncates.
-/

/-- Modelled from the spec: the transport-safe snapshot representation
produced by `FlightPlan.serialize()` (the `SerializedFlightPlan` type of
the `BaseFlightPlan` module, which is outside the verified source). It
carries the plan's logical content and version but not its slot index;
the index travels separately as the key of the snapshot record. -/
structure SerializedFlightPlan where
  version : Nat
  content : Nat
deriving DecidableEq

/-- Modelled from the spec: the opaque `FlightPlan` value type (its class
is outside the verified source). A versioned, cloneable record tagged
with the slot index it currently occupies; the route content itself is
opaque and represented by a single `content` field. -/
structure FlightPlan where
  index : Nat
  version : Nat
  content : Nat
deriving DecidableEq

/-- Modelled from the spec: `FlightPlan.empty(index, bus)` produces a
fresh, empty plan tagged with `index` (the event bus argument carries no
state relevant to this model). -/
def FlightPlan.empty (index : Nat) : FlightPlan :=
  { index := index, version := 0, content := 0 }

/-- Modelled from the spec: `clone(newIndex)` produces an independent
deep copy re-tagged with `newIndex`, identical in version and content. -/
def FlightPlan.clone (p : FlightPlan) (newIndex : Nat) : FlightPlan :=
  { index := newIndex, version := p.version, content := p.content }

/-- Modelled from the spec: `incrementVersion()` bumps the monotonically
incrementing version counter. -/
def FlightPlan.incrementVersion (p : FlightPlan) : FlightPlan :=
  { p with version := p.version + 1 }

/-- Modelled from the spec: `serialize()` produces the transport-safe
snapshot form of the plan. -/
def FlightPlan.serialize (p : FlightPlan) : SerializedFlightPlan :=
  { version := p.version, content := p.content }

/-- Modelled from the spec: `FlightPlan.fromSerializedFlightPlan(index,
serialized, bus)` deserializes a snapshot into a plan tagged with
`index`. -/
def FlightPlan.fromSerializedFlightPlan (index : Nat) (sp : SerializedFlightPlan) : FlightPlan :=
  { index := index, version := sp.version, content := sp.content }

/-- The sync event topics of `FlightPlanSyncEvents`, with their payloads:
`flightPlanManager.syncRequest` (no payload), `flightPlanManager.syncResponse`
(`FlightPlanSyncResponsePacket`, a sparse record from index to serialized
plan), and the five mutation topics. -/
inductive SyncEvent where
  | syncRequest : SyncEvent
  | syncResponse : List (Nat × SerializedFlightPlan) → SyncEvent
  | create : Nat → SyncEvent
  | delete : Nat → SyncEvent
  | deleteAll : SyncEvent
  | copy : Nat → Nat → SyncEvent
  | swap : Nat → Nat → SyncEvent
deriving DecidableEq

/-- The two failure kinds thrown by the manager's assertion helpers:
`assertFlightPlanExists` throws when the slot is empty (`SlotNotFound`)
and `assertFlightPlanDoesntExist` throws when it is occupied
(`SlotAlreadyOccupied`). -/
inductive FpmError where
  | slotNotFound : Nat → FpmError
  | slotAlreadyOccupied : Nat → FpmError
deriving DecidableEq

/-- Read `l[i]` from a sparse JavaScript array: a hole or an index past
the end reads as `undefined` (`none`). -/
def arrayGet : List (Option FlightPlan) → Nat → Option FlightPlan
  | [], _ => none
  | p :: _, 0 => p
  | _ :: ps, i + 1 => arrayGet ps i

/-- Write `l[i] = v` into a sparse JavaScript array: in-place update when
`i` is within the current length, otherwise the array grows to `i + 1`
with holes in between. -/
def arraySet : List (Option FlightPlan) → Nat → Option FlightPlan → List (Option FlightPlan)
  | [], 0, v => [v]
  | [], i + 1, v => none :: arraySet [] i v
  | _ :: ps, 0, v => v :: ps
  | p :: ps, i + 1, v => p :: arraySet ps i v

/-- The mutable state of one `FlightPlanManager` unit: the `plans` array,
the `ignoreSync` echo-guard flag, and (for reasoning about the protocol)
the list of events this unit has published through `sendEvent`, in
order. -/
structure FpmState where
  plans : List (Option FlightPlan)
  ignoreSync : Bool
  sent : List SyncEvent
deriving DecidableEq

/-- The state of a freshly constructed manager: empty plans array, echo
guard down, nothing published yet. -/
def initialState : FpmState :=
  { plans := [], ignoreSync := false, sent := [] }

namespace FlightPlanManager

/-- `sendEvent(topic, data)`: sets `ignoreSync = true`, publishes the
event on the bus (recorded here by appending to `sent`; the loopback
delivery that may occur synchronously while the flag is up is modelled
separately by running `handleEvent` on a flag-up state), then clears
`ignoreSync = false`. The net state after the call has the flag down and
the event appended. -/
def sendEvent (ev : SyncEvent) (s : FpmState) : FpmState :=
  { s with ignoreSync := false, sent := s.sent ++ [ev] }

/-- `assertFlightPlanExists(index)`: throws `SlotNotFound` when
`!this.plans[index]`. -/
def assertFlightPlanExists (index : Nat) (s : FpmState) : Except FpmError Unit :=
  match arrayGet s.plans index with
  | none => .error (.slotNotFound index)
  | some _ => .ok ()

/-- `assertFlightPlanDoesntExist(index)`: throws `SlotAlreadyOccupied`
when `this.plans[index]` is present. -/
def assertFlightPlanDoesntExist (index : Nat) (s : FpmState) : Except FpmError Unit :=
  match arrayGet s.plans index with
  | none => .ok ()
  | some _ => .error (.slotAlreadyOccupied index)

/-- `has(index)`: `this.plans[index] !== undefined`. -/
def has (index : Nat) (s : FpmState) : Bool :=
  (arrayGet s.plans index).isSome

/-- `get(index)`: asserts the plan exists, then returns it. (The inner
`none` branch is unreachable after a successful assertion.) -/
def get (index : Nat) (s : FpmState) : Except FpmError FlightPlan :=
  match assertFlightPlanExists index s with
  | .error e => .error e
  | .ok () =>
    match arrayGet s.plans index with
    | some p => .ok p
    | none => .error (.slotNotFound index)

/-- The private `set(index, flightPlan)`: raw slot write, no assertion,
no broadcast. -/
def set (index : Nat) (flightPlan : FlightPlan) (s : FpmState) : FpmState :=
  { s with plans := arraySet s.plans index (some flightPlan) }

/-- `create(index, notify = true)`: asserts the slot is empty, installs a
fresh empty plan tagged with `index`, then broadcasts
`flightPlanManager.create` when `notify`. -/
def create (index : Nat) (notify : Bool) (s : FpmState) : Except FpmError Unit × FpmState :=
  match assertFlightPlanDoesntExist index s with
  | .error e => (.error e, s)
  | .ok () =>
    let s1 : FpmState := { s with plans := arraySet s.plans index (some (FlightPlan.empty index)) }
    if notify then (.ok (), sendEvent (.create index) s1) else (.ok (), s1)

/-- `delete(index, notify = true)`: asserts the slot is occupied, writes
`undefined` into it, then broadcasts `flightPlanManager.delete` when
`notify`. -/
def delete (index : Nat) (notify : Bool) (s : FpmState) : Except FpmError Unit × FpmState :=
  match assertFlightPlanExists index s with
  | .error e => (.error e, s)
  | .ok () =>
    let s1 : FpmState := { s with plans := arraySet s.plans index none }
    if notify then (.ok (), sendEvent (.delete index) s1) else (.ok (), s1)

/-- `deleteAll(notify = true)`: truncates the array (`plans.length = 0`),
then broadcasts `flightPlanManager.deleteAll` when `notify`. Never
fails. -/
def deleteAll (notify : Bool) (s : FpmState) : Except FpmError Unit × FpmState :=
  let s1 : FpmState := { s with plans := [] }
  if notify then (.ok (), sendEvent .deleteAll s1) else (.ok (), s1)

/-- `copy(from, to, notify = true)`: asserts the source exists, clones it
re-tagged with `to`, installs the clone at `to` (overwriting), increments
the installed clone's version, then broadcasts `flightPlanManager.copy`
when `notify`. -/
def copy (fromIdx toIdx : Nat) (notify : Bool) (s : FpmState) : Except FpmError Unit × FpmState :=
  match assertFlightPlanExists fromIdx s with
  | .error e => (.error e, s)
  | .ok () =>
    match get fromIdx s with
    | .error e => (.error e, s)
    | .ok src =>
      let s1 := set toIdx (src.clone toIdx) s
      match get toIdx s1 with
      | .error e => (.error e, s1)
      | .ok installed =>
        let s2 := set toIdx installed.incrementVersion s1
        if notify then (.ok (), sendEvent (.copy fromIdx toIdx) s2) else (.ok (), s2)

/-- `swap(a, b, notify = true)`: asserts both slots are occupied,
captures both occupants, deletes both slots (each an un-broadcast
`delete`), reinserts each occupant at the other index, then broadcasts
`flightPlanManager.swap` when `notify`. The occupants are reinserted
verbatim, without re-tagging. -/
def swap (a b : Nat) (notify : Bool) (s : FpmState) : Except FpmError Unit × FpmState :=
  match assertFlightPlanExists a s with
  | .error e => (.error e, s)
  | .ok () =>
    match assertFlightPlanExists b s with
    | .error e => (.error e, s)
    | .ok () =>
      match get a s with
      | .error e => (.error e, s)
      | .ok planA =>
        match get b s with
        | .error e => (.error e, s)
        | .ok planB =>
          match delete a false s with
          | (.error e, s1) => (.error e, s1)
          | (.ok (), s1) =>
            match delete b false s1 with
            | (.error e, s2) => (.error e, s2)
            | (.ok (), s2) =>
              let s3 := set a planB s2
              let s4 := set b planA s3
              if notify then (.ok (), sendEvent (.swap a b) s4) else (.ok (), s4)

/-- The `syncRequest` handler's snapshot of every occupied slot: iterate
the `plans` array in order, skip holes, and record each plan's serialized
form keyed by the plan's own `index` field (not its slot position). -/
def collectPlans (plans : List (Option FlightPlan)) : List (Nat × SerializedFlightPlan) :=
  plans.filterMap (fun slot => slot.map (fun p => (p.index, p.serialize)))

/-- The sync protocol handlers registered in the constructor, one per
topic. Every handler except `syncResponse` first checks `ignoreSync` and
discards the event when the flag is up; the `syncResponse` handler has no
such check in the source. Mutation topics replay the corresponding
operation with `notify = false`; there is no catch around the replay, so
a replay failure propagates out of the handler. -/
def handleEvent (ev : SyncEvent) (s : FpmState) : Except FpmError Unit × FpmState :=
  match ev with
  | .syncRequest =>
    if !s.ignoreSync then
      (.ok (), sendEvent (.syncResponse (collectPlans s.plans)) s)
    else
      (.ok (), s)
  | .syncResponse plans =>
    (.ok (), plans.foldl
      (fun st entry => set entry.1 (FlightPlan.fromSerializedFlightPlan entry.1 entry.2) st) s)
  | .create planIndex =>
    if !s.ignoreSync then create planIndex false s else (.ok (), s)
  | .delete planIndex =>
    if !s.ignoreSync then delete planIndex false s else (.ok (), s)
  | .deleteAll =>
    if !s.ignoreSync then deleteAll false s else (.ok (), s)
  | .copy planIndex targetPlanIndex =>
    if !s.ignoreSync then copy planIndex targetPlanIndex false s else (.ok (), s)
  | .swap planIndex targetPlanIndex =>
    if !s.ignoreSync then swap planIndex targetPlanIndex false s else (.ok (), s)

end FlightPlanManager

/-- The entry points through which anything can happen to one unit after
construction: a local mutation API call (with the default
`notify = true`), the delivery of a sync event from the bus, or the
firing of the bootstrap timer. -/
inductive UnitAction where
  | apiCreate : Nat → UnitAction
  | apiDelete : Nat → UnitAction
  | apiDeleteAll : UnitAction
  | apiCopy : Nat → Nat → UnitAction
  | apiSwap : Nat → Nat → UnitAction
  | deliver : SyncEvent → UnitAction
  | timerFire : UnitAction
deriving DecidableEq

/-- One unit together with its pending one-shot bootstrap timer: the
constructor schedules `sendEvent(syncRequest)` once, after a fixed
settling delay, only when the unit is not master. -/
structure UnitState where
  fpm : FpmState
  timerPending : Bool
deriving DecidableEq

/-- The constructor: empty state; a non-master unit has the one-shot
snapshot-request timer pending, a master unit schedules nothing. -/
def initUnit (master : Bool) : UnitState :=
  { fpm := initialState, timerPending := !master }

/-- One entry-point execution. A mutation API failure propagates to the
local caller but the unit survives with whatever partial state the throw
left behind; the timer, when it fires, publishes the snapshot request and
never rearms (no retry). -/
def stepUnit (a : UnitAction) (u : UnitState) : UnitState :=
  match a with
  | .apiCreate i => { u with fpm := (FlightPlanManager.create i true u.fpm).2 }
  | .apiDelete i => { u with fpm := (FlightPlanManager.delete i true u.fpm).2 }
  | .apiDeleteAll => { u with fpm := (FlightPlanManager.deleteAll true u.fpm).2 }
  | .apiCopy f t => { u with fpm := (FlightPlanManager.copy f t true u.fpm).2 }
  | .apiSwap a b => { u with fpm := (FlightPlanManager.swap a b true u.fpm).2 }
  | .deliver ev => { u with fpm := (FlightPlanManager.handleEvent ev u.fpm).2 }
  | .timerFire =>
    if u.timerPending then
      { fpm := FlightPlanManager.sendEvent .syncRequest u.fpm, timerPending := false }
    else
      u

/-- A whole execution of one unit: construct it, then run any finite
sequence of entry points. -/
def runUnit (master : Bool) (acts : List UnitAction) : UnitState :=
  acts.foldl (fun u a => stepUnit a u) (initUnit master)

/-- Recognizes the snapshot-request topic among published events. -/
def isSyncRequest : SyncEvent → Bool
  | .syncRequest => true
  | _ => false

/-! ## Basic lemmas about the sparse array model -/

theorem arrayGet_arraySet_self (l : List (Option FlightPlan)) (i : Nat) (v : Option FlightPlan) :
    arrayGet (arraySet l i v) i = v := by
  induction i generalizing l with
  | zero => cases l <;> rfl
  | succ n ih => cases l <;> simp [arraySet, arrayGet, ih]

theorem arrayGet_arraySet_ne (l : List (Option FlightPlan)) (i j : Nat) (v : Option FlightPlan)
    (h : j ≠ i) : arrayGet (arraySet l i v) j = arrayGet l j := by
  induction i generalizing l j with
  | zero =>
    cases j with
    | zero => exact absurd rfl h
    | succ k => cases l <;> simp [arraySet, arrayGet]
  | succ n ih =>
    cases j with
    | zero => cases l <;> simp [arraySet, arrayGet]
    | succ k =>
      have hk : k ≠ n := fun hkn => h (by rw [hkn])
      cases l with
      | nil => simp [arraySet, arrayGet, ih _ _ hk]
      | cons p ps => simp [arraySet, arrayGet, ih _ _ hk]

namespace FlightPlanManager

/-! ## Characterization lemmas for the operations -/

theorem sendEvent_plans (ev : SyncEvent) (s : FpmState) : (sendEvent ev s).plans = s.plans := rfl

theorem sendEvent_ignoreSync (ev : SyncEvent) (s : FpmState) :
    (sendEvent ev s).ignoreSync = false := rfl

theorem assertExists_of_some {s : FpmState} {i : Nat} {p : FlightPlan}
    (h : arrayGet s.plans i = some p) : assertFlightPlanExists i s = .ok () := by
  simp [assertFlightPlanExists, h]

theorem assertExists_of_none {s : FpmState} {i : Nat}
    (h : arrayGet s.plans i = none) : assertFlightPlanExists i s = .error (.slotNotFound i) := by
  simp [assertFlightPlanExists, h]

theorem get_of_some {s : FpmState} {i : Nat} {p : FlightPlan}
    (h : arrayGet s.plans i = some p) : get i s = .ok p := by
  simp [get, assertFlightPlanExists, h]

theorem create_of_some {s : FpmState} {i : Nat} {p : FlightPlan} (notify : Bool)
    (h : arrayGet s.plans i = some p) :
    create i notify s = (.error (.slotAlreadyOccupied i), s) := by
  simp [create, assertFlightPlanDoesntExist, h]

theorem create_of_none {s : FpmState} {i : Nat} (notify : Bool)
    (h : arrayGet s.plans i = none) :
    create i notify s =
      (.ok (), { plans := arraySet s.plans i (some (FlightPlan.empty i)),
                 ignoreSync := if notify then false else s.ignoreSync,
                 sent := if notify then s.sent ++ [.create i] else s.sent }) := by
  cases notify <;> simp [create, assertFlightPlanDoesntExist, h, sendEvent]

theorem delete_of_none {s : FpmState} {i : Nat} (notify : Bool)
    (h : arrayGet s.plans i = none) :
    delete i notify s = (.error (.slotNotFound i), s) := by
  simp [delete, assertFlightPlanExists, h]

theorem delete_of_some {s : FpmState} {i : Nat} {p : FlightPlan} (notify : Bool)
    (h : arrayGet s.plans i = some p) :
    delete i notify s =
      (.ok (), { plans := arraySet s.plans i none,
                 ignoreSync := if notify then false else s.ignoreSync,
                 sent := if notify then s.sent ++ [.delete i] else s.sent }) := by
  cases notify <;> simp [delete, assertFlightPlanExists, h, sendEvent]

theorem copy_of_none {s : FpmState} {f t : Nat} (notify : Bool)
    (h : arrayGet s.plans f = none) :
    copy f t notify s = (.error (.slotNotFound f), s) := by
  simp [copy, assertFlightPlanExists, h]

theorem copy_of_some {s : FpmState} {f t : Nat} {p : FlightPlan} (notify : Bool)
    (h : arrayGet s.plans f = some p) :
    copy f t notify s =
      (.ok (), { plans := arraySet (arraySet s.plans t (some (p.clone t))) t
                   (some ((p.clone t).incrementVersion)),
                 ignoreSync := if notify then false else s.ignoreSync,
                 sent := if notify then s.sent ++ [.copy f t] else s.sent }) := by
  have h1 : arrayGet (arraySet s.plans t (some (p.clone t))) t = some (p.clone t) :=
    arrayGet_arraySet_self ..
  cases notify <;>
    simp [copy, assertFlightPlanExists, get, h, FlightPlanManager.set, h1, sendEvent]

theorem deleteAll_eq (notify : Bool) (s : FpmState) :
    deleteAll notify s =
      (.ok (), { plans := [],
                 ignoreSync := if notify then false else s.ignoreSync,
                 sent := if notify then s.sent ++ [.deleteAll] else s.sent }) := by
  cases notify <;> simp [deleteAll, sendEvent]

theorem swap_of_none_left {s : FpmState} {a b : Nat} (notify : Bool)
    (ha : arrayGet s.plans a = none) :
    swap a b notify s = (.error (.slotNotFound a), s) := by
  simp [swap, assertFlightPlanExists, ha]

theorem swap_of_none_right {s : FpmState} {a b : Nat} {pa : FlightPlan} (notify : Bool)
    (ha : arrayGet s.plans a = some pa) (hb : arrayGet s.plans b = none) :
    swap a b notify s = (.error (.slotNotFound b), s) := by
  simp [swap, assertFlightPlanExists, ha, hb]

theorem swap_of_some {s : FpmState} {a b : Nat} {pa pb : FlightPlan} (notify : Bool)
    (hab : a ≠ b) (ha : arrayGet s.plans a = some pa) (hb : arrayGet s.plans b = some pb) :
    swap a b notify s =
      (.ok (), { plans := arraySet (arraySet (arraySet (arraySet s.plans a none) b none) a
                   (some pb)) b (some pa),
                 ignoreSync := if notify then false else s.ignoreSync,
                 sent := if notify then s.sent ++ [.swap a b] else s.sent }) := by
  have hba : b ≠ a := Ne.symm hab
  have h1 : arrayGet (arraySet s.plans a none) b = some pb := by
    rw [arrayGet_arraySet_ne _ _ _ _ hba]; exact hb
  cases notify <;>
    simp [swap, assertFlightPlanExists, get, ha, hb, delete, h1, FlightPlanManager.set, sendEvent]

theorem swap_self_of_some {s : FpmState} {a : Nat} {p : FlightPlan} (notify : Bool)
    (h : arrayGet s.plans a = some p) :
    swap a a notify s = (.error (.slotNotFound a), { s with plans := arraySet s.plans a none }) := by
  have h2 : arrayGet (arraySet s.plans a none) a = none := arrayGet_arraySet_self ..
  simp [swap, assertFlightPlanExists, get, h, delete, h2]

/-! ## Lemmas about the snapshot-response install fold -/

theorem respFold_sent (ps : List (Nat × SerializedFlightPlan)) (s : FpmState) :
    (List.foldl
      (fun st entry => set entry.1 (FlightPlan.fromSerializedFlightPlan entry.1 entry.2) st)
      s ps).sent = s.sent := by
  induction ps generalizing s with
  | nil => rfl
  | cons e rest ih => rw [List.foldl_cons, ih]; rfl

theorem respFold_ignoreSync (ps : List (Nat × SerializedFlightPlan)) (s : FpmState) :
    (List.foldl
      (fun st entry => set entry.1 (FlightPlan.fromSerializedFlightPlan entry.1 entry.2) st)
      s ps).ignoreSync = s.ignoreSync := by
  induction ps generalizing s with
  | nil => rfl
  | cons e rest ih => rw [List.foldl_cons, ih]; rfl

theorem respFold_arrayGet (ps : List (Nat × SerializedFlightPlan)) (s : FpmState) (i : Nat) :
    arrayGet (List.foldl
      (fun st entry => set entry.1 (FlightPlan.fromSerializedFlightPlan entry.1 entry.2) st)
      s ps).plans i = arrayGet s.plans i ∨
    ∃ p, arrayGet (List.foldl
      (fun st entry => set entry.1 (FlightPlan.fromSerializedFlightPlan entry.1 entry.2) st)
      s ps).plans i = some p ∧ p.index = i := by
  induction ps generalizing s with
  | nil => exact Or.inl rfl
  | cons e rest ih =>
    rw [List.foldl_cons]
    rcases ih (set e.1 (FlightPlan.fromSerializedFlightPlan e.1 e.2) s) with hl | hr
    · by_cases hie : i = e.1
      · right
        refine ⟨FlightPlan.fromSerializedFlightPlan e.1 e.2, ?_, hie.symm⟩
        rw [hl, hie]
        exact arrayGet_arraySet_self ..
      · left
        rw [hl]
        exact arrayGet_arraySet_ne _ _ _ _ hie
    · exact Or.inr hr

end FlightPlanManager

/-! ## No operation other than the bootstrap timer ever publishes a snapshot request -/

namespace FlightPlanManager

theorem countP_sendEvent (ev : SyncEvent) (s : FpmState) (h : isSyncRequest ev = false) :
    ((sendEvent ev s).sent).countP isSyncRequest = s.sent.countP isSyncRequest := by
  simp [sendEvent, List.countP_append, List.countP_cons, h]

theorem create_sent_countP (i : Nat) (notify : Bool) (s : FpmState) :
    (((create i notify s).2).sent).countP isSyncRequest = s.sent.countP isSyncRequest := by
  cases h : arrayGet s.plans i with
  | some p => rw [create_of_some notify h]
  | none =>
    rw [create_of_none notify h]
    cases notify <;> simp [List.countP_append, List.countP_cons, isSyncRequest]

theorem delete_sent_countP (i : Nat) (notify : Bool) (s : FpmState) :
    (((delete i notify s).2).sent).countP isSyncRequest = s.sent.countP isSyncRequest := by
  cases h : arrayGet s.plans i with
  | some p =>
    rw [delete_of_some notify h]
    cases notify <;> simp [List.countP_append, List.countP_cons, isSyncRequest]
  | none => rw [delete_of_none notify h]

theorem deleteAll_sent_countP (notify : Bool) (s : FpmState) :
    (((deleteAll notify s).2).sent).countP isSyncRequest = s.sent.countP isSyncRequest := by
  rw [deleteAll_eq]
  cases notify <;> simp [List.countP_append, List.countP_cons, isSyncRequest]

theorem copy_sent_countP (f t : Nat) (notify : Bool) (s : FpmState) :
    (((copy f t notify s).2).sent).countP isSyncRequest = s.sent.countP isSyncRequest := by
  cases h : arrayGet s.plans f with
  | some p =>
    rw [copy_of_some notify h]
    cases notify <;> simp [List.countP_append, List.countP_cons, isSyncRequest]
  | none => rw [copy_of_none notify h]

theorem swap_sent_countP (a b : Nat) (notify : Bool) (s : FpmState) :
    (((swap a b notify s).2).sent).countP isSyncRequest = s.sent.countP isSyncRequest := by
  cases ha : arrayGet s.plans a with
  | none => rw [swap_of_none_left notify ha]
  | some pa =>
    cases hb : arrayGet s.plans b with
    | none => rw [swap_of_none_right notify ha hb]
    | some pb =>
      by_cases hab : a = b
      · subst hab
        rw [swap_self_of_some notify ha]
      · rw [swap_of_some notify hab ha hb]
        cases notify <;> simp [List.countP_append, List.countP_cons, isSyncRequest]

theorem handleEvent_sent_countP (ev : SyncEvent) (s : FpmState) :
    (((handleEvent ev s).2).sent).countP isSyncRequest = s.sent.countP isSyncRequest := by
  cases ev with
  | syncRequest =>
    cases hf : s.ignoreSync with
    | false =>
      simp only [handleEvent, hf, Bool.not_false, if_pos]
      exact countP_sendEvent _ _ rfl
    | true => simp [handleEvent, hf]
  | syncResponse ps =>
    simp only [handleEvent]
    rw [respFold_sent]
  | create i =>
    cases hf : s.ignoreSync with
    | false => simp only [handleEvent, hf, Bool.not_false, if_pos]; exact create_sent_countP ..
    | true => simp [handleEvent, hf]
  | delete i =>
    cases hf : s.ignoreSync with
    | false => simp only [handleEvent, hf, Bool.not_false, if_pos]; exact delete_sent_countP ..
    | true => simp [handleEvent, hf]
  | deleteAll =>
    cases hf : s.ignoreSync with
    | false => simp only [handleEvent, hf, Bool.not_false, if_pos]; exact deleteAll_sent_countP ..
    | true => simp [handleEvent, hf]
  | copy f t =>
    cases hf : s.ignoreSync with
    | false => simp only [handleEvent, hf, Bool.not_false, if_pos]; exact copy_sent_countP ..
    | true => simp [handleEvent, hf]
  | swap a b =>
    cases hf : s.ignoreSync with
    | false => simp only [handleEvent, hf, Bool.not_false, if_pos]; exact swap_sent_countP ..
    | true => simp [handleEvent, hf]

end FlightPlanManager

/-- How many snapshot requests a unit has published so far. -/
def countReq (u : UnitState) : Nat :=
  u.fpm.sent.countP isSyncRequest

theorem stepUnit_countReq_of_ne_timer (a : UnitAction) (u : UnitState) (h : a ≠ .timerFire) :
    countReq (stepUnit a u) = countReq u ∧ (stepUnit a u).timerPending = u.timerPending := by
  cases a with
  | apiCreate i => exact ⟨FlightPlanManager.create_sent_countP .., rfl⟩
  | apiDelete i => exact ⟨FlightPlanManager.delete_sent_countP .., rfl⟩
  | apiDeleteAll => exact ⟨FlightPlanManager.deleteAll_sent_countP .., rfl⟩
  | apiCopy f t => exact ⟨FlightPlanManager.copy_sent_countP .., rfl⟩
  | apiSwap a b => exact ⟨FlightPlanManager.swap_sent_countP .., rfl⟩
  | deliver ev => exact ⟨FlightPlanManager.handleEvent_sent_countP .., rfl⟩
  | timerFire => exact absurd rfl h

theorem stepUnit_timerFire (u : UnitState) :
    (u.timerPending = true →
      countReq (stepUnit .timerFire u) = countReq u + 1 ∧
      (stepUnit .timerFire u).timerPending = false) ∧
    (u.timerPending = false → stepUnit .timerFire u = u) := by
  constructor
  · intro hp
    constructor
    · simp [stepUnit, hp, countReq, FlightPlanManager.sendEvent, List.countP_append,
        List.countP_cons, isSyncRequest]
    · simp [stepUnit, hp]
  · intro hp
    simp [stepUnit, hp]

theorem foldl_master_inv (acts : List UnitAction) (u : UnitState)
    (h1 : countReq u = 0) (h2 : u.timerPending = false) :
    countReq (acts.foldl (fun v a => stepUnit a v) u) = 0 ∧
    (acts.foldl (fun v a => stepUnit a v) u).timerPending = false := by
  induction acts generalizing u with
  | nil => exact ⟨h1, h2⟩
  | cons a rest ih =>
    rw [List.foldl_cons]
    by_cases ha : a = UnitAction.timerFire
    · subst ha
      rw [(stepUnit_timerFire u).2 h2]
      exact ih u h1 h2
    · obtain ⟨hc, hp⟩ := stepUnit_countReq_of_ne_timer a u ha
      exact ih _ (by rw [hc, h1]) (by rw [hp, h2])

theorem foldl_req_bound (acts : List UnitAction) (u : UnitState)
    (h : countReq u ≤ if u.timerPending then 0 else 1) :
    countReq (acts.foldl (fun v a => stepUnit a v) u) ≤
      if (acts.foldl (fun v a => stepUnit a v) u).timerPending then 0 else 1 := by
  induction acts generalizing u with
  | nil => exact h
  | cons a rest ih =>
    rw [List.foldl_cons]
    by_cases ha : a = UnitAction.timerFire
    · subst ha
      cases hp : u.timerPending with
      | false =>
        rw [(stepUnit_timerFire u).2 hp]
        exact ih u h
      | true =>
        obtain ⟨hc, hp2⟩ := (stepUnit_timerFire u).1 hp
        have h0 : countReq u = 0 := by
          have := h
          rw [hp] at this
          exact Nat.le_zero.mp this
        refine ih _ ?_
        rw [hc, hp2, h0]
        exact Nat.le_refl 1
    · obtain ⟨hc, hp⟩ := stepUnit_countReq_of_ne_timer a u ha
      refine ih _ ?_
      rw [hc, hp]
      exact h

/-! ## Claim theorems -/

/-- C1, counterexample: the claim quantifies over all topics, but the
`syncResponse` handler has no `ignoreSync` check in the source. With the
suppressing flag set, an incoming snapshot-response still mutates the
slot table: from an empty table and `ignoreSync = true`, delivering a
snapshot-response that lists slot 0 installs a plan at slot 0. -/
theorem C1_counterexample :
    (FpmState.mk [] true []).ignoreSync = true ∧
    (FlightPlanManager.handleEvent (.syncResponse [(0, ⟨3, 4⟩)])
      (FpmState.mk [] true [])).2.plans ≠ (FpmState.mk [] true []).plans := by
  exact ⟨rfl, by decide⟩

/-- C1 (amended): for every incoming sync event of a topic other than
snapshot-response (snapshot-request, create, delete, delete-all, copy,
swap), if the unit's suppressing (`ignoreSync`) flag is set when the
event is delivered, the handler discards the event: the state — slot
table, flag, and published events — is left entirely unchanged, so a
unit's own broadcast of those topics looped back to its own handlers
never causes it to re-apply the mutation or re-broadcast. The
snapshot-response handler alone ignores the flag. -/
theorem C1_echo_suppressed (ev : SyncEvent) (s : FpmState)
    (hflag : s.ignoreSync = true) (hnr : ∀ ps, ev ≠ SyncEvent.syncResponse ps) :
    FlightPlanManager.handleEvent ev s = (.ok (), s) := by
  cases ev with
  | syncResponse ps => exact absurd rfl (hnr ps)
  | syncRequest => simp [FlightPlanManager.handleEvent, hflag]
  | create i => simp [FlightPlanManager.handleEvent, hflag]
  | delete i => simp [FlightPlanManager.handleEvent, hflag]
  | deleteAll => simp [FlightPlanManager.handleEvent, hflag]
  | copy f t => simp [FlightPlanManager.handleEvent, hflag]
  | swap a b => simp [FlightPlanManager.handleEvent, hflag]

/-- C1, witness: a create event delivered with the flag up is discarded
whole. -/
theorem C1_echo_suppressed_witness :
    FlightPlanManager.handleEvent (.create 0) (FpmState.mk [] true []) =
      (.ok (), FpmState.mk [] true []) :=
  C1_echo_suppressed (.create 0) (FpmState.mk [] true []) rfl (fun _ h => nomatch h)

/-- C2, counterexample: a delete replay targeting the empty slot 0 does
not return normally — the handler propagates `SlotNotFound` out of the
handler boundary (there is no catch in the source). -/
theorem C2_counterexample :
    FlightPlanManager.handleEvent (.delete 0) initialState =
      (.error (.slotNotFound 0), initialState) := rfl

/-- C2 (amended): for every incoming mutation sync event (create,
delete, delete-all, copy, swap) delivered with the suppressing flag
down, the handler is exactly the corresponding un-broadcast replay: it
adds no catch, so a replay that fails propagates its failure out of the
Sync Protocol Handler unchanged, rather than being swallowed. -/
theorem C2_replay_uncaught (s : FpmState) (hflag : s.ignoreSync = false) :
    (∀ i, FlightPlanManager.handleEvent (.create i) s = FlightPlanManager.create i false s) ∧
    (∀ i, FlightPlanManager.handleEvent (.delete i) s = FlightPlanManager.delete i false s) ∧
    (FlightPlanManager.handleEvent .deleteAll s = FlightPlanManager.deleteAll false s) ∧
    (∀ f t, FlightPlanManager.handleEvent (.copy f t) s = FlightPlanManager.copy f t false s) ∧
    (∀ a b, FlightPlanManager.handleEvent (.swap a b) s = FlightPlanManager.swap a b false s) := by
  refine ⟨fun i => ?_, fun i => ?_, ?_, fun f t => ?_, fun a b => ?_⟩ <;>
    simp [FlightPlanManager.handleEvent, hflag]

/-- C2, witness: at the freshly constructed state the delete handler is
the bare replay. -/
theorem C2_replay_uncaught_witness :
    FlightPlanManager.handleEvent (.delete 0) initialState =
      FlightPlanManager.delete 0 false initialState :=
  (C2_replay_uncaught initialState rfl).2.1 0

/-- C3, counterexample: `swap` does not re-tag. Swapping two occupied
slots 0 and 1 succeeds, yet the plan then occupying slot 0 still reports
index 1 internally, violating the claimed tagging invariant. -/
theorem C3_counterexample :
    (FlightPlanManager.swap 0 1 true
      (FpmState.mk [some ⟨0, 0, 10⟩, some ⟨1, 0, 20⟩] false [])).1 = .ok () ∧
    Option.map FlightPlan.index
      (arrayGet (FlightPlanManager.swap 0 1 true
        (FpmState.mk [some ⟨0, 0, 10⟩, some ⟨1, 0, 20⟩] false [])).2.plans 0) = some 1 ∧
    Option.map FlightPlan.index
      (arrayGet (FlightPlanManager.swap 0 1 true
        (FpmState.mk [some ⟨0, 0, 10⟩, some ⟨1, 0, 20⟩] false [])).2.plans 0) ≠ some 0 := by
  exact ⟨rfl, rfl, by decide⟩

/-- C3 (amended): after a successful `create`, the plan installed at
slot `i` reports index `i`; after a successful `copy`, the plan
installed at the target slot reports the target index; a
snapshot-response install leaves every slot either untouched or holding
a plan tagged with that slot's index. `swap(a, b)`, however, reinserts
the two captured occupants verbatim — the plan moved to slot `a` is
exactly the former occupant of slot `b`, still carrying its old internal
index, and symmetrically — so swap does not maintain the tagging
invariant. -/
theorem C3_tagging (s : FpmState) :
    (∀ i notify, (FlightPlanManager.create i notify s).1 = .ok () →
      ∃ p, arrayGet (FlightPlanManager.create i notify s).2.plans i = some p ∧ p.index = i) ∧
    (∀ f t notify, (FlightPlanManager.copy f t notify s).1 = .ok () →
      ∃ p, arrayGet (FlightPlanManager.copy f t notify s).2.plans t = some p ∧ p.index = t) ∧
    (∀ ps i, arrayGet (FlightPlanManager.handleEvent (.syncResponse ps) s).2.plans i =
        arrayGet s.plans i ∨
      ∃ p, arrayGet (FlightPlanManager.handleEvent (.syncResponse ps) s).2.plans i = some p ∧
        p.index = i) ∧
    (∀ a b notify pa pb, a ≠ b →
      arrayGet s.plans a = some pa → arrayGet s.plans b = some pb →
      (FlightPlanManager.swap a b notify s).1 = .ok () ∧
      arrayGet (FlightPlanManager.swap a b notify s).2.plans a = some pb ∧
      arrayGet (FlightPlanManager.swap a b notify s).2.plans b = some pa) := by
  refine ⟨?_, ?_, ?_, ?_⟩
  · intro i notify hok
    cases h : arrayGet s.plans i with
    | some p => rw [FlightPlanManager.create_of_some notify h] at hok; exact absurd hok (by simp)
    | none =>
      rw [FlightPlanManager.create_of_none notify h]
      exact ⟨FlightPlan.empty i, arrayGet_arraySet_self .., rfl⟩
  · intro f t notify hok
    cases h : arrayGet s.plans f with
    | none => rw [FlightPlanManager.copy_of_none notify h] at hok; exact absurd hok (by simp)
    | some p =>
      rw [FlightPlanManager.copy_of_some notify h]
      exact ⟨(p.clone t).incrementVersion, arrayGet_arraySet_self .., rfl⟩
  · intro ps i
    simp only [FlightPlanManager.handleEvent]
    exact FlightPlanManager.respFold_arrayGet ps s i
  · intro a b notify pa pb hab ha hb
    rw [FlightPlanManager.swap_of_some notify hab ha hb]
    refine ⟨rfl, ?_, ?_⟩
    · rw [arrayGet_arraySet_ne _ _ _ _ hab]
      exact arrayGet_arraySet_self ..
    · exact arrayGet_arraySet_self ..

/-- C3, witness: swapping the two occupied slots 0 and 1 moves the two
plans verbatim. -/
theorem C3_tagging_witness :
    (FlightPlanManager.swap 0 1 true
      (FpmState.mk [some ⟨0, 0, 10⟩, some ⟨1, 0, 20⟩] false [])).1 = .ok () ∧
    arrayGet (FlightPlanManager.swap 0 1 true
      (FpmState.mk [some ⟨0, 0, 10⟩, some ⟨1, 0, 20⟩] false [])).2.plans 0 = some ⟨1, 0, 20⟩ ∧
    arrayGet (FlightPlanManager.swap 0 1 true
      (FpmState.mk [some ⟨0, 0, 10⟩, some ⟨1, 0, 20⟩] false [])).2.plans 1 = some ⟨0, 0, 10⟩ :=
  (C3_tagging (FpmState.mk [some ⟨0, 0, 10⟩, some ⟨1, 0, 20⟩] false [])).2.2.2
    0 1 true ⟨0, 0, 10⟩ ⟨1, 0, 20⟩ (by decide) rfl rfl

/-- C4: for distinct indices, `swap(a, b)` with either slot empty fails
with `SlotNotFound` before any mutation: the returned state is exactly
the input state (no slot, flag, or publication changes — no partial swap
is observable). -/
theorem C4_swap_empty_atomic (s : FpmState) (a b : Nat) (notify : Bool) (_hab : a ≠ b)
    (h : arrayGet s.plans a = none ∨ arrayGet s.plans b = none) :
    ∃ j, FlightPlanManager.swap a b notify s = (.error (.slotNotFound j), s) := by
  rcases h with h | h
  · exact ⟨a, FlightPlanManager.swap_of_none_left notify h⟩
  · cases ha : arrayGet s.plans a with
    | none => exact ⟨a, FlightPlanManager.swap_of_none_left notify ha⟩
    | some pa => exact ⟨b, FlightPlanManager.swap_of_none_right notify ha h⟩

/-- C4, witness: swapping occupied slot 0 with empty slot 1 fails and
leaves the state untouched. -/
theorem C4_swap_empty_atomic_witness :
    ∃ j, FlightPlanManager.swap 0 1 true (FpmState.mk [some ⟨0, 0, 1⟩] false []) =
      (.error (.slotNotFound j), FpmState.mk [some ⟨0, 0, 1⟩] false []) :=
  C4_swap_empty_atomic (FpmState.mk [some ⟨0, 0, 1⟩] false []) 0 1 true
    (by decide) (Or.inr rfl)

/-- C5, counterexample: the claim quantifies over every source and
target, but for the self-copy `copy(0, 0)` on an occupied slot 0 the
source occupant is not left in place — the operation succeeds and
replaces it with the version-bumped clone. -/
theorem C5_counterexample :
    (FlightPlanManager.copy 0 0 true (FpmState.mk [some ⟨0, 5, 7⟩] false [])).1 = .ok () ∧
    arrayGet (FlightPlanManager.copy 0 0 true
      (FpmState.mk [some ⟨0, 5, 7⟩] false [])).2.plans 0 ≠ some ⟨0, 5, 7⟩ := by
  exact ⟨rfl, by decide⟩

/-- C5 (amended): `copy(s, t)` fails with `SlotNotFound` and leaves the
state unchanged when slot `s` is empty; when slot `s` holds plan `p` it
succeeds, installing at `t` a deep clone of `p` re-tagged with `t` whose
version counter has been incremented, overwriting any existing occupant
of `t` without error, and — when `s` and `t` are distinct — leaving the
source occupant in place (for `s = t` the clone replaces the source in
the shared slot). -/
theorem C5_copy (s : FpmState) (f t : Nat) (notify : Bool) :
    (arrayGet s.plans f = none →
      FlightPlanManager.copy f t notify s = (.error (.slotNotFound f), s)) ∧
    (∀ p, arrayGet s.plans f = some p →
      (FlightPlanManager.copy f t notify s).1 = .ok () ∧
      arrayGet (FlightPlanManager.copy f t notify s).2.plans t =
        some { index := t, version := p.version + 1, content := p.content } ∧
      (f ≠ t → arrayGet (FlightPlanManager.copy f t notify s).2.plans f = arrayGet s.plans f)) := by
  constructor
  · intro h
    exact FlightPlanManager.copy_of_none notify h
  · intro p h
    rw [FlightPlanManager.copy_of_some notify h]
    refine ⟨rfl, arrayGet_arraySet_self .., fun hft => ?_⟩
    rw [arrayGet_arraySet_ne _ _ _ _ hft, arrayGet_arraySet_ne _ _ _ _ hft]

/-- C5, witness: copying occupied slot 0 over the occupied slot 1
overwrites slot 1 with the re-tagged, version-bumped clone and leaves
slot 0 alone. -/
theorem C5_copy_witness :
    (FlightPlanManager.copy 0 1 true
      (FpmState.mk [some ⟨0, 5, 7⟩, some ⟨1, 9, 9⟩] false [])).1 = .ok () ∧
    arrayGet (FlightPlanManager.copy 0 1 true
      (FpmState.mk [some ⟨0, 5, 7⟩, some ⟨1, 9, 9⟩] false [])).2.plans 1 = some ⟨1, 6, 7⟩ ∧
    ((0 : Nat) ≠ 1 → arrayGet (FlightPlanManager.copy 0 1 true
      (FpmState.mk [some ⟨0, 5, 7⟩, some ⟨1, 9, 9⟩] false [])).2.plans 0 =
      arrayGet (FpmState.mk [some ⟨0, 5, 7⟩, some ⟨1, 9, 9⟩] false []).plans 0) :=
  (C5_copy (FpmState.mk [some ⟨0, 5, 7⟩, some ⟨1, 9, 9⟩] false []) 0 1 true).2 ⟨0, 5, 7⟩ rfl

/-- C6: if `create(i)` succeeds then immediately afterwards `has(i)` is
true and `get(i)` succeeds; if slot `i` was already occupied, `create(i)`
fails with `SlotAlreadyOccupied` and leaves the state unchanged. -/
theorem C6_create (s : FpmState) (i : Nat) (notify : Bool) :
    ((FlightPlanManager.create i notify s).1 = .ok () →
      FlightPlanManager.has i (FlightPlanManager.create i notify s).2 = true ∧
      ∃ p, FlightPlanManager.get i (FlightPlanManager.create i notify s).2 = .ok p) ∧
    (∀ p, arrayGet s.plans i = some p →
      FlightPlanManager.create i notify s = (.error (.slotAlreadyOccupied i), s)) := by
  constructor
  · intro hok
    cases h : arrayGet s.plans i with
    | some p =>
      rw [FlightPlanManager.create_of_some notify h] at hok
      exact absurd hok (by simp)
    | none =>
      rw [FlightPlanManager.create_of_none notify h]
      have hi : arrayGet (arraySet s.plans i (some (FlightPlan.empty i))) i =
          some (FlightPlan.empty i) := arrayGet_arraySet_self ..
      constructor
      · simp [FlightPlanManager.has, hi]
      · exact ⟨FlightPlan.empty i, FlightPlanManager.get_of_some hi⟩
  · intro p h
    exact FlightPlanManager.create_of_some notify h

/-- C6, witness: creating slot 0 in the fresh state makes `has(0)` true
and `get(0)` succeed. -/
theorem C6_create_witness :
    FlightPlanManager.has 0 (FlightPlanManager.create 0 true initialState).2 = true ∧
    ∃ p, FlightPlanManager.get 0 (FlightPlanManager.create 0 true initialState).2 = .ok p :=
  (C6_create initialState 0 true).1 rfl

/-- C7: bootstrap behavior. A master unit is constructed with no pending
bootstrap timer and, over every finite execution of entry points
(mutation API calls, event deliveries, timer firings), never publishes a
snapshot request — it only answers. A non-master unit is constructed
with the one-shot timer pending; firing it publishes exactly the single
snapshot-request broadcast; and over every finite execution a non-master
unit publishes at most one snapshot request (one-shot, no retry). -/
theorem C7_bootstrap :
    (initUnit true).timerPending = false ∧
    (∀ acts : List UnitAction, countReq (runUnit true acts) = 0) ∧
    (initUnit false).timerPending = true ∧
    (runUnit false [.timerFire]).fpm.sent = [.syncRequest] ∧
    (∀ acts : List UnitAction, countReq (runUnit false acts) ≤ 1) := by
  refine ⟨rfl, ?_, rfl, rfl, ?_⟩
  · intro acts
    exact (foldl_master_inv acts (initUnit true) rfl rfl).1
  · intro acts
    have h := foldl_req_bound acts (initUnit false) (by simp [countReq, initUnit, initialState])
    refine le_trans h ?_
    split
    · exact Nat.zero_le 1
    · exact Nat.le_refl 1

/-- C8: the degenerate `swap(a, a)` on an occupied slot `a` passes both
precondition checks, deletes the slot, then throws `SlotNotFound` from
the second internal delete: the operation fails non-atomically, leaving
slot `a` empty — the occupant is lost. -/
theorem C8_swap_self_lossy (s : FpmState) (a : Nat) (p : FlightPlan)
    (h : arrayGet s.plans a = some p) :
    FlightPlanManager.swap a a true s =
      (.error (.slotNotFound a), { s with plans := arraySet s.plans a none }) ∧
    arrayGet (FlightPlanManager.swap a a true s).2.plans a = none := by
  have h1 := FlightPlanManager.swap_self_of_some (s := s) true h
  refine ⟨h1, ?_⟩
  rw [h1]
  exact arrayGet_arraySet_self ..

/-- C8, witness: `swap(0, 0)` on the occupied slot 0 throws and empties
the slot. -/
theorem C8_swap_self_lossy_witness :
    FlightPlanManager.swap 0 0 true (FpmState.mk [some ⟨0, 1, 2⟩] false []) =
      (.error (.slotNotFound 0), FpmState.mk [none] false []) ∧
    arrayGet (FlightPlanManager.swap 0 0 true
      (FpmState.mk [some ⟨0, 1, 2⟩] false [])).2.plans 0 = none :=
  C8_swap_self_lossy (FpmState.mk [some ⟨0, 1, 2⟩] false []) 0 ⟨0, 1, 2⟩ rfl

/-- C9: the self-copy `copy(i, i)` on an occupied slot `i` succeeds and
replaces the occupant with a fresh deep clone of itself tagged with the
same index `i`, version counter incremented; every other slot is
unaffected. -/
theorem C9_copy_self (s : FpmState) (i : Nat) (notify : Bool) (p : FlightPlan)
    (h : arrayGet s.plans i = some p) :
    (FlightPlanManager.copy i i notify s).1 = .ok () ∧
    arrayGet (FlightPlanManager.copy i i notify s).2.plans i =
      some { index := i, version := p.version + 1, content := p.content } ∧
    (∀ j, j ≠ i →
      arrayGet (FlightPlanManager.copy i i notify s).2.plans j = arrayGet s.plans j) := by
  rw [FlightPlanManager.copy_of_some notify h]
  refine ⟨rfl, arrayGet_arraySet_self .., fun j hj => ?_⟩
  rw [arrayGet_arraySet_ne _ _ _ _ hj, arrayGet_arraySet_ne _ _ _ _ hj]

/-- C9, witness: the self-copy at slot 0 bumps the version in place and
leaves slot 1 alone. -/
theorem C9_copy_self_witness :
    (FlightPlanManager.copy 0 0 true
      (FpmState.mk [some ⟨0, 5, 7⟩, some ⟨1, 2, 3⟩] false [])).1 = .ok () ∧
    arrayGet (FlightPlanManager.copy 0 0 true
      (FpmState.mk [some ⟨0, 5, 7⟩, some ⟨1, 2, 3⟩] false [])).2.plans 0 = some ⟨0, 6, 7⟩ ∧
    (∀ j, j ≠ 0 →
      arrayGet (FlightPlanManager.copy 0 0 true
        (FpmState.mk [some ⟨0, 5, 7⟩, some ⟨1, 2, 3⟩] false [])).2.plans j =
      arrayGet (FpmState.mk [some ⟨0, 5, 7⟩, some ⟨1, 2, 3⟩] false []).plans j) :=
  C9_copy_self (FpmState.mk [some ⟨0, 5, 7⟩, some ⟨1, 2, 3⟩] false []) 0 true ⟨0, 5, 7⟩ rfl

/-- C10: frame property. A successful `create(i)` or `delete(i)` leaves
every slot other than `i` exactly as it was; and on success the
suppressing flag is down when the operation returns — unconditionally
when the operation broadcasts (`notify = true`, the public API default),
and whenever it was already down (as in every replay) otherwise. -/
theorem C10_frame (s : FpmState) (i j : Nat) (notify : Bool) (hj : j ≠ i) :
    ((FlightPlanManager.create i notify s).1 = .ok () →
      arrayGet (FlightPlanManager.create i notify s).2.plans j = arrayGet s.plans j ∧
      (notify = true → (FlightPlanManager.create i notify s).2.ignoreSync = false) ∧
      (s.ignoreSync = false → (FlightPlanManager.create i notify s).2.ignoreSync = false)) ∧
    ((FlightPlanManager.delete i notify s).1 = .ok () →
      arrayGet (FlightPlanManager.delete i notify s).2.plans j = arrayGet s.plans j ∧
      (notify = true → (FlightPlanManager.delete i notify s).2.ignoreSync = false) ∧
      (s.ignoreSync = false → (FlightPlanManager.delete i notify s).2.ignoreSync = false)) := by
  constructor
  · intro hok
    cases h : arrayGet s.plans i with
    | some p =>
      rw [FlightPlanManager.create_of_some notify h] at hok
      exact absurd hok (by simp)
    | none =>
      rw [FlightPlanManager.create_of_none notify h]
      refine ⟨arrayGet_arraySet_ne _ _ _ _ hj, fun hn => ?_, fun hf => ?_⟩
      · simp [hn]
      · cases notify <;> simp [hf]
  · intro hok
    cases h : arrayGet s.plans i with
    | none =>
      rw [FlightPlanManager.delete_of_none notify h] at hok
      exact absurd hok (by simp)
    | some p =>
      rw [FlightPlanManager.delete_of_some notify h]
      refine ⟨arrayGet_arraySet_ne _ _ _ _ hj, fun hn => ?_, fun hf => ?_⟩
      · simp [hn]
      · cases notify <;> simp [hf]

/-- C10, witness: creating slot 0 next to the occupied slot 1 leaves
slot 1 untouched and returns with the flag down. -/
theorem C10_frame_witness :
    arrayGet (FlightPlanManager.create 0 true
      (FpmState.mk [none, some ⟨1, 4, 4⟩] false [])).2.plans 1 =
      arrayGet (FpmState.mk [none, some ⟨1, 4, 4⟩] false []).plans 1 ∧
    ((true : Bool) = true →
      (FlightPlanManager.create 0 true
        (FpmState.mk [none, some ⟨1, 4, 4⟩] false [])).2.ignoreSync = false) ∧
    ((FpmState.mk [none, some ⟨1, 4, 4⟩] false []).ignoreSync = false →
      (FlightPlanManager.create 0 true
        (FpmState.mk [none, some ⟨1, 4, 4⟩] false [])).2.ignoreSync = false) :=
  (C10_frame (FpmState.mk [none, some ⟨1, 4, 4⟩] false []) 0 1 true (by decide)).1 rfl
